import Mathlib

/-!
# deepseek-go, client.go: the four request operations

A shallow embedding of `src/client.go`.  The four operations
(`CreateChatCompletion`, `CreateChatCompletionStream`, `CreateFIMCompletion`,
`CreateFIMStreamCompletion`) are translated statement by statement.

* Go pointers and interface values that may be nil are `Option`s.
* The collaborators that live outside client.go (the request builder, the
  send operation, `HandleAPIError`, the two response decoders) are the fields
  of an environment `Env`; each returns what its Go signature allows, so a
  result and an error may both be nil.  An error a collaborator returns is a
  `ForeignError`; it enters the errors of client.go through `GoError.foreign`.
* Effects are recorded in a trace of `Event`s, in program order; a deferred
  `resp.Body.Close()` is recorded where it runs, at the return.  A collaborator
  that is handed the response may close its body too; `released` counts the
  closes of client.go and of the collaborators together.
* A nil pointer dereference ends the call with `Outcome.panicked`.
* A pointer argument the operation writes through is passed as state: `Exec`
  carries the pointee as it is when the call ends.
-/

namespace deepseek

/-! ## Errors -/

/-- An error value made by a collaborator. It is allocated outside client.go,
which never looks inside it; a tag tells such values apart. -/
structure ForeignError where
  tag : Nat
deriving DecidableEq, Repr

/-- Go error values as client.go sees them: the ones it makes itself with
`fmt.Errorf`, with or without a wrapped cause, and the ones handed to it by a
collaborator.  Every `fmt.Errorf` call allocates a new value, so an error made
in client.go is never the same value as one a collaborator returned. -/
inductive GoError where
  | errorf (msg : String)
  | wrapf (format : String) (inner : GoError)
  | foreign (e : ForeignError)
deriving DecidableEq, Repr

/-- The chain walked by `errors.Is`: an error carries a target when it is the
target or wraps, at any depth, an error that is. -/
def GoError.carries : GoError → GoError → Bool
  | .errorf m, target => decide (GoError.errorf m = target)
  | .foreign e, target => decide (GoError.foreign e = target)
  | .wrapf f inner, target => decide (GoError.wrapf f inner = target) || inner.carries target

/-! ## The standard library pieces client.go touches -/

/-- A context of package `context`: one supplied from outside, or one derived
from a parent by `context.WithCancel`. -/
inductive Context where
  | root (id : Nat)
  | withCancel (parent : Context)
deriving DecidableEq, Repr

/-- The function returned by `context.WithCancel`; calling it cancels `target`. -/
structure CancelFunc where
  target : Context
deriving DecidableEq, Repr

/-- Whether a context is done, given the contexts cancelled directly: a derived
context is done when it was cancelled or when its parent is done. -/
def Context.done (cancelled : Context → Bool) : Context → Bool
  | .root id => cancelled (.root id)
  | .withCancel p => cancelled (.withCancel p) || p.done cancelled

/-- Calling a cancel function adds its target to the cancelled contexts. -/
def CancelFunc.call (f : CancelFunc) (cancelled : Context → Bool) : Context → Bool :=
  fun c => decide (c = f.target) || cancelled c

/-- The call `context.WithCancel(ctx)`: the derived context and its cancel function. -/
def WithCancel (ctx : Context) : Context × CancelFunc :=
  (.withCancel ctx, ⟨.withCancel ctx⟩)

/-- An `io.ReadCloser`: the open body of a response. -/
structure ReadCloser where
  handle : Nat
  data : String
deriving DecidableEq, Repr

/-- The part of `http.Response` client.go reads. -/
structure Response where
  StatusCode : Int
  Body : ReadCloser
deriving DecidableEq, Repr

/-- A `bufio.Reader`: the source it reads from and the read and write
positions of its buffer. -/
structure Reader where
  rd : ReadCloser
  r : Nat
  w : Nat
deriving DecidableEq, Repr

/-- The call `bufio.NewReader(rd)`: an empty buffer over `rd`, nothing consumed. -/
def NewReader (rd : ReadCloser) : Reader :=
  { rd := rd, r := 0, w := 0 }

/-- An `http.Request` as produced by the builder; client.go only passes it on. -/
structure HTTPRequest where
  tag : Nat
deriving DecidableEq, Repr

/-! ## The types of the package declared outside client.go -/

/-- The fields of a struct that client.go neither reads nor writes, kept as one value. -/
structure Fields where
  json : String
deriving DecidableEq, Repr

/-- The fields of `Client` that client.go reads. -/
structure Client where
  AuthToken : String
  BaseURL : String
  ApiType : String
deriving DecidableEq, Repr

structure ChatCompletionRequest where
  fields : Fields
deriving DecidableEq, Repr

structure StreamChatCompletionRequest where
  Stream : Bool
  fields : Fields
deriving DecidableEq, Repr

structure FIMCompletionRequest where
  MaxTokens : Int
  fields : Fields
deriving DecidableEq, Repr

structure FIMStreamCompletionRequest where
  Stream : Bool
  fields : Fields
deriving DecidableEq, Repr

structure ChatCompletionResponse where
  fields : Fields
deriving DecidableEq, Repr

structure FIMCompletionResponse where
  fields : Fields
deriving DecidableEq, Repr

/-- The struct handed to `SetBodyFromStruct`, as it is at that moment. -/
inductive RequestBody where
  | chat (r : ChatCompletionRequest)
  | streamChat (r : StreamChatCompletionRequest)
  | fim (r : FIMCompletionRequest)
  | fimStream (r : FIMStreamCompletionRequest)
deriving DecidableEq, Repr

/-- The request builder of package utils: what has been set on it so far. -/
structure RequestBuilder where
  authToken : String
  baseURL : Option String
  path : Option String
  body : Option RequestBody
  apiType : Option String
deriving DecidableEq, Repr

def NewRequestBuilder (authToken : String) : RequestBuilder :=
  { authToken := authToken, baseURL := none, path := none, body := none, apiType := none }

def RequestBuilder.SetBaseURL (b : RequestBuilder) (url : String) : RequestBuilder :=
  { b with baseURL := some url }

def RequestBuilder.SetPath (b : RequestBuilder) (path : String) : RequestBuilder :=
  { b with path := some path }

def RequestBuilder.SetBodyFromStruct (b : RequestBuilder) (body : RequestBody) : RequestBuilder :=
  { b with body := some body }

def RequestBuilder.SetApiType (b : RequestBuilder) (apiType : String) : RequestBuilder :=
  { b with apiType := some apiType }

/-- The collaborators of client.go, each with the results its Go signature
allows.  The three collaborators that are handed the response can also reach
its body: for each of them the environment says how many times it calls Close
on the body of the response it is given. -/
structure Env where
  Build : RequestBuilder → Context → Option HTTPRequest × Option ForeignError
  BuildStream : RequestBuilder → Context → Option HTTPRequest × Option ForeignError
  HandleSendChatCompletionRequest :
    Client → Option HTTPRequest → Option Response × Option ForeignError
  HandleAPIError : Response → Option ForeignError
  HandleChatCompletionResponse : Response → Option ChatCompletionResponse × Option ForeignError
  HandleFIMCompletionRequest : Response → Option FIMCompletionResponse × Option ForeignError
  HandleAPIErrorCloses : Response → Nat
  HandleChatCompletionResponseCloses : Response → Nat
  HandleFIMCompletionRequestCloses : Response → Nat

/-- The stream session of the chat operation. -/
structure chatCompletionStream where
  ctx : Context
  cancel : CancelFunc
  resp : Response
  reader : Reader
deriving DecidableEq, Repr

/-- The stream session of the fill-in-middle operation. -/
structure fimCompletionStream where
  ctx : Context
  cancel : CancelFunc
  resp : Response
  reader : Reader
deriving DecidableEq, Repr

/-! ## Effects -/

/-- What an operation does to the outside, in program order. -/
inductive Event where
  | build (b : RequestBuilder) (ctx : Context)
  | buildStream (b : RequestBuilder) (ctx : Context)
  | send (c : Client) (req : Option HTTPRequest)
  | apiError (resp : Response)
  | decodeChat (resp : Response)
  | decodeFIM (resp : Response)
  | close (body : ReadCloser)
  | withCancel (ctx : Context)
  | newReader (body : ReadCloser)
deriving DecidableEq, Repr

/-- How a call ends: it returns its values, or it panics on a nil pointer. -/
inductive Outcome (α : Type) where
  | returned (v : α)
  | panicked
deriving DecidableEq, Repr

/-- A finished call: its trace, the pointee of the request pointer as the
call leaves it (none for a nil pointer), and how it ended. -/
structure Exec (ρ α : Type) where
  trace : List Event
  request : Option ρ
  outcome : Outcome α

/-! ## The operations -/

/-- CreateChatCompletion, client.go lines 12 to 48. -/
def CreateChatCompletion (env : Env) (c : Client) (ctx : Context)
    (request : Option ChatCompletionRequest) :
    Exec ChatCompletionRequest (Option ChatCompletionResponse × Int × Option GoError) :=
  match request with
  | none => ⟨[], none, .returned (none, 0, some (.errorf "request cannot be nil"))⟩
  | some r =>
    let b := ((((NewRequestBuilder c.AuthToken).SetBaseURL c.BaseURL).SetPath
      "chat/completions").SetBodyFromStruct (.chat r)).SetApiType c.ApiType
    match env.Build b ctx with
    | (_, some err) =>
      ⟨[.build b ctx], some r,
        .returned (none, 0, some (.wrapf "error building request: %w" (.foreign err)))⟩
    | (req, none) =>
      match env.HandleSendChatCompletionRequest c req with
      | (_, some err) =>
        ⟨[.build b ctx, .send c req], some r,
          .returned (none, 0, some (.wrapf "error sending request: %w" (.foreign err)))⟩
      | (none, none) =>
        -- defer resp.Body.Close() reads resp.Body through a nil resp
        ⟨[.build b ctx, .send c req], some r, .panicked⟩
      | (some resp, none) =>
        if resp.StatusCode >= 400 then
          ⟨[.build b ctx, .send c req, .apiError resp, .close resp.Body], some r,
            .returned (none, 0, (env.HandleAPIError resp).map .foreign)⟩
        else
          match env.HandleChatCompletionResponse resp with
          | (_, some err) =>
            ⟨[.build b ctx, .send c req, .decodeChat resp, .close resp.Body], some r,
              .returned (none, 0, some (.wrapf "error decoding response: %w" (.foreign err)))⟩
          | (updatedResp, none) =>
            ⟨[.build b ctx, .send c req, .decodeChat resp, .close resp.Body], some r,
              .returned (updatedResp, resp.StatusCode, none)⟩

/-- CreateChatCompletionStream, client.go lines 51 to 85. -/
def CreateChatCompletionStream (env : Env) (c : Client) (ctx : Context)
    (request : Option StreamChatCompletionRequest) :
    Exec StreamChatCompletionRequest (Option chatCompletionStream × Int × Option GoError) :=
  match request with
  | none =>
    -- request.Stream = true writes through a nil request
    ⟨[], none, .panicked⟩
  | some r0 =>
    let r : StreamChatCompletionRequest := { r0 with Stream := true }
    let b := ((((NewRequestBuilder c.AuthToken).SetBaseURL c.BaseURL).SetPath
      "chat/completions").SetBodyFromStruct (.streamChat r)).SetApiType c.ApiType
    match env.BuildStream b ctx with
    | (_, some err) =>
      ⟨[.buildStream b ctx], some r,
        .returned (none, 0, some (.wrapf "error building request: %w" (.foreign err)))⟩
    | (req, none) =>
      match env.HandleSendChatCompletionRequest c req with
      | (_, some err) =>
        ⟨[.buildStream b ctx, .send c req], some r, .returned (none, 0, some (.foreign err))⟩
      | (none, none) =>
        -- resp.StatusCode reads through a nil resp
        ⟨[.buildStream b ctx, .send c req], some r, .panicked⟩
      | (some resp, none) =>
        if resp.StatusCode >= 400 then
          ⟨[.buildStream b ctx, .send c req, .apiError resp], some r,
            .returned (none, resp.StatusCode, (env.HandleAPIError resp).map .foreign)⟩
        else
          let cc := WithCancel ctx
          let stream : chatCompletionStream :=
            { ctx := cc.1, cancel := cc.2, resp := resp, reader := NewReader resp.Body }
          ⟨[.buildStream b ctx, .send c req, .withCancel ctx, .newReader resp.Body], some r,
            .returned (some stream, resp.StatusCode, none)⟩

/-- CreateFIMCompletion, client.go lines 89 to 122. -/
def CreateFIMCompletion (env : Env) (c : Client) (ctx : Context)
    (request : Option FIMCompletionRequest) :
    Exec FIMCompletionRequest (Option FIMCompletionResponse × Option GoError) :=
  match request with
  | none =>
    -- request.MaxTokens reads through a nil request
    ⟨[], none, .panicked⟩
  | some r =>
    if r.MaxTokens > 4000 then
      ⟨[], some r, .returned (none, some (.errorf "max tokens must be <= 4000"))⟩
    else
      let baseURL := "https://api.deepseek.com/beta/"
      if request.isNone then
        ⟨[], some r, .returned (none, some (.errorf "request cannot be nil"))⟩
      else
        let b := (((NewRequestBuilder c.AuthToken).SetBaseURL baseURL).SetPath
          "completions").SetBodyFromStruct (.fim r)
        match env.Build b ctx with
        | (_, some err) =>
          ⟨[.build b ctx], some r,
            .returned (none, some (.wrapf "error building request: %w" (.foreign err)))⟩
        | (req, none) =>
          match env.HandleSendChatCompletionRequest c req with
          | (_, some err) =>
            ⟨[.build b ctx, .send c req], some r,
              .returned (none, some (.wrapf "error sending request: %w" (.foreign err)))⟩
          | (none, none) =>
            -- defer resp.Body.Close() reads resp.Body through a nil resp
            ⟨[.build b ctx, .send c req], some r, .panicked⟩
          | (some resp, none) =>
            if resp.StatusCode >= 400 then
              ⟨[.build b ctx, .send c req, .apiError resp, .close resp.Body], some r,
                .returned (none, (env.HandleAPIError resp).map .foreign)⟩
            else
              match env.HandleFIMCompletionRequest resp with
              | (_, some err) =>
                ⟨[.build b ctx, .send c req, .decodeFIM resp, .close resp.Body], some r,
                  .returned (none, some (.wrapf "error decoding response: %w" (.foreign err)))⟩
              | (updatedResp, none) =>
                ⟨[.build b ctx, .send c req, .decodeFIM resp, .close resp.Body], some r,
                  .returned (updatedResp, none)⟩

/-- CreateFIMStreamCompletion, client.go lines 125 to 159. -/
def CreateFIMStreamCompletion (env : Env) (c : Client) (ctx : Context)
    (request : Option FIMStreamCompletionRequest) :
    Exec FIMStreamCompletionRequest (Option fimCompletionStream × Option GoError) :=
  let baseURL := "https://api.deepseek.com/beta/"
  match request with
  | none =>
    -- request.Stream = true writes through a nil request
    ⟨[], none, .panicked⟩
  | some r0 =>
    let r : FIMStreamCompletionRequest := { r0 with Stream := true }
    let b := (((NewRequestBuilder c.AuthToken).SetBaseURL baseURL).SetPath
      "/completions").SetBodyFromStruct (.fimStream r)
    match env.BuildStream b ctx with
    | (_, some err) =>
      ⟨[.buildStream b ctx], some r,
        .returned (none, some (.wrapf "error building request: %w" (.foreign err)))⟩
    | (req, none) =>
      match env.HandleSendChatCompletionRequest c req with
      | (_, some err) =>
        ⟨[.buildStream b ctx, .send c req], some r, .returned (none, some (.foreign err))⟩
      | (none, none) =>
        -- resp.StatusCode reads through a nil resp
        ⟨[.buildStream b ctx, .send c req], some r, .panicked⟩
      | (some resp, none) =>
        if resp.StatusCode >= 400 then
          ⟨[.buildStream b ctx, .send c req, .apiError resp], some r,
            .returned (none, (env.HandleAPIError resp).map .foreign)⟩
        else
          let cc := WithCancel ctx
          let stream : fimCompletionStream :=
            { ctx := cc.1, cancel := cc.2, resp := resp, reader := NewReader resp.Body }
          ⟨[.buildStream b ctx, .send c req, .withCancel ctx, .newReader resp.Body], some r,
            .returned (some stream, none)⟩

/-! ## Vocabulary for the statements -/

/-- The builder CreateChatCompletion hands to Build for the request r. -/
def chatBuilder (c : Client) (r : ChatCompletionRequest) : RequestBuilder :=
  ((((NewRequestBuilder c.AuthToken).SetBaseURL c.BaseURL).SetPath
    "chat/completions").SetBodyFromStruct (.chat r)).SetApiType c.ApiType

/-- The builder CreateChatCompletionStream hands to BuildStream when called on r. -/
def chatStreamBuilder (c : Client) (r : StreamChatCompletionRequest) : RequestBuilder :=
  ((((NewRequestBuilder c.AuthToken).SetBaseURL c.BaseURL).SetPath
    "chat/completions").SetBodyFromStruct (.streamChat { r with Stream := true })).SetApiType
    c.ApiType

/-- The builder CreateFIMCompletion hands to Build for the request r. -/
def fimBuilder (c : Client) (r : FIMCompletionRequest) : RequestBuilder :=
  (((NewRequestBuilder c.AuthToken).SetBaseURL "https://api.deepseek.com/beta/").SetPath
    "completions").SetBodyFromStruct (.fim r)

/-- The builder CreateFIMStreamCompletion hands to BuildStream when called on r. -/
def fimStreamBuilder (c : Client) (r : FIMStreamCompletionRequest) : RequestBuilder :=
  (((NewRequestBuilder c.AuthToken).SetBaseURL "https://api.deepseek.com/beta/").SetPath
    "/completions").SetBodyFromStruct (.fimStream { r with Stream := true })

/-- The events by which a stream session is put together. -/
def Event.isSession : Event → Bool
  | .withCancel _ => true
  | .newReader _ => true
  | _ => false

/-- How many times client.go itself calls Close on the given body in a trace. -/
def ownCloses (body : ReadCloser) (trace : List Event) : Nat :=
  trace.count (.close body)

/-- How many times one event releases the given body: a Close made by
client.go counts once, and a call that hands the response to a collaborator
counts as many times as that collaborator closes the body. -/
def Event.releases (env : Env) (body : ReadCloser) : Event → Nat
  | .close b => if b = body then 1 else 0
  | .apiError resp => if resp.Body = body then env.HandleAPIErrorCloses resp else 0
  | .decodeChat resp =>
    if resp.Body = body then env.HandleChatCompletionResponseCloses resp else 0
  | .decodeFIM resp =>
    if resp.Body = body then env.HandleFIMCompletionRequestCloses resp else 0
  | _ => 0

/-- How many times the given body has been released when a trace ends, by
client.go and by the collaborators it called. -/
def released (env : Env) (body : ReadCloser) (trace : List Event) : Nat :=
  (trace.map (Event.releases env body)).sum

/-- A collaborator result in good order: a result that is not nil together
with a nil error, or an error that is not nil. -/
def wellBehaved {α : Type} (p : Option α × Option ForeignError) : Prop :=
  (p.1.isSome = true ∧ p.2 = none) ∨ p.2.isSome = true

/-- Every collaborator returns results in good order, and HandleAPIError never
returns a nil error. -/
structure Env.WellBehaved (env : Env) : Prop where
  build : ∀ b k, wellBehaved (env.Build b k)
  buildStream : ∀ b k, wellBehaved (env.BuildStream b k)
  send : ∀ c q, wellBehaved (env.HandleSendChatCompletionRequest c q)
  apiError : ∀ resp, (env.HandleAPIError resp).isSome = true
  decodeChat : ∀ resp, wellBehaved (env.HandleChatCompletionResponse resp)
  decodeFIM : ∀ resp, wellBehaved (env.HandleFIMCompletionRequest resp)

/-! ## Sample collaborators, for concrete runs -/

/-- A server that answers every request with the given status.  HandleAPIError
closes the body it is handed once; the decoders leave it open. -/
def sampleEnv (status : Int) : Env where
  Build := fun _ _ => (some ⟨1⟩, none)
  BuildStream := fun _ _ => (some ⟨2⟩, none)
  HandleSendChatCompletionRequest := fun _ _ => (some ⟨status, ⟨7, "body"⟩⟩, none)
  HandleAPIError := fun resp => some ⟨resp.StatusCode.toNat⟩
  HandleChatCompletionResponse := fun _ => (some ⟨⟨"chat"⟩⟩, none)
  HandleFIMCompletionRequest := fun _ => (some ⟨⟨"fim"⟩⟩, none)
  HandleAPIErrorCloses := fun _ => 1
  HandleChatCompletionResponseCloses := fun _ => 0
  HandleFIMCompletionRequestCloses := fun _ => 0

/-- The sample collaborators, with a HandleAPIError that leaves the body open. -/
def sampleEnvNoClose (status : Int) : Env :=
  { sampleEnv status with HandleAPIErrorCloses := fun _ => 0 }

/-- The sample collaborators, with decoders that fail on every body. -/
def sampleEnvDecodeFails (status : Int) : Env :=
  { sampleEnv status with
    HandleChatCompletionResponse := fun _ => (none, some ⟨9⟩)
    HandleFIMCompletionRequest := fun _ => (none, some ⟨9⟩) }

/-- The sample collaborators, with a HandleAPIError that returns a nil error. -/
def sampleEnvNilAPIError (status : Int) : Env :=
  { sampleEnv status with HandleAPIError := fun _ => none }

def sampleClient : Client :=
  { AuthToken := "token", BaseURL := "https://api.deepseek.com/", ApiType := "deepseek" }

def sampleResponse (status : Int) : Response :=
  ⟨status, ⟨7, "body"⟩⟩

/-! ## Theorems -/

/-- C1: when the send yields a response with status at least 400, the two
streaming operations return a nil stream together with the error that
HandleAPIError gives for that response, the trace holds no step of session
construction, and CreateChatCompletionStream returns the status code of the
response next to the error. -/
theorem stream_api_error_no_session (env : Env) (c : Client) (ctx : Context)
    (resp : Response) (h : 400 ≤ resp.StatusCode) :
    (∀ (r : StreamChatCompletionRequest) (req : Option HTTPRequest),
      env.BuildStream (chatStreamBuilder c r) ctx = (req, none) →
      env.HandleSendChatCompletionRequest c req = (some resp, none) →
      (CreateChatCompletionStream env c ctx (some r)).outcome
          = .returned (none, resp.StatusCode, (env.HandleAPIError resp).map .foreign) ∧
        ∀ e ∈ (CreateChatCompletionStream env c ctx (some r)).trace, e.isSession = false) ∧
    (∀ (r : FIMStreamCompletionRequest) (req : Option HTTPRequest),
      env.BuildStream (fimStreamBuilder c r) ctx = (req, none) →
      env.HandleSendChatCompletionRequest c req = (some resp, none) →
      (CreateFIMStreamCompletion env c ctx (some r)).outcome
          = .returned (none, (env.HandleAPIError resp).map .foreign) ∧
        ∀ e ∈ (CreateFIMStreamCompletion env c ctx (some r)).trace, e.isSession = false) := by
  constructor
  · intro r req hb hs
    simp only [chatStreamBuilder] at hb
    simp [CreateChatCompletionStream, hb, hs, h, Event.isSession]
  · intro r req hb hs
    simp only [fimStreamBuilder] at hb
    simp [CreateFIMStreamCompletion, hb, hs, h, Event.isSession]

/-- A run of C1: a 401 answer to both streaming operations. -/
theorem stream_api_error_no_session_witness :
    ((CreateChatCompletionStream (sampleEnv 401) sampleClient (.root 0)
        (some ⟨false, ⟨"x"⟩⟩)).outcome
          = .returned (none, 401, some (.foreign ⟨401⟩))) ∧
    ((CreateFIMStreamCompletion (sampleEnv 401) sampleClient (.root 0)
        (some ⟨false, ⟨"x"⟩⟩)).outcome
          = .returned (none, some (.foreign ⟨401⟩))) :=
  have h := stream_api_error_no_session (sampleEnv 401) sampleClient (.root 0)
    (sampleResponse 401) (by decide)
  ⟨(h.1 ⟨false, ⟨"x"⟩⟩ (some ⟨2⟩) rfl rfl).1, (h.2 ⟨false, ⟨"x"⟩⟩ (some ⟨2⟩) rfl rfl).1⟩

/-- C2: when the builder reports no error, the send yields a response and its
status is below 400, CreateChatCompletionStream returns a stream, the status of
the response and a nil error, and CreateFIMStreamCompletion returns a stream and
a nil error.  The stream holds that response, a reader over its body with
nothing consumed or buffered, and the context and cancel function that
context.WithCancel derives from the context of the caller: the stream context
is done as soon as the context of the caller is, and is done once the cancel
function of the stream has been called. -/
theorem stream_success_session (env : Env) (c : Client) (ctx : Context)
    (resp : Response) (h : resp.StatusCode < 400) :
    (∀ (r : StreamChatCompletionRequest) (req : Option HTTPRequest),
      env.BuildStream (chatStreamBuilder c r) ctx = (req, none) →
      env.HandleSendChatCompletionRequest c req = (some resp, none) →
      ∃ s : chatCompletionStream,
        (CreateChatCompletionStream env c ctx (some r)).outcome
            = .returned (some s, resp.StatusCode, none) ∧
        s.resp = resp ∧ s.reader.rd = resp.Body ∧ s.reader.r = 0 ∧ s.reader.w = 0 ∧
        (s.ctx, s.cancel) = WithCancel ctx ∧
        (∀ cancelled, ctx.done cancelled = true → s.ctx.done cancelled = true) ∧
        (∀ cancelled, s.ctx.done (s.cancel.call cancelled) = true)) ∧
    (∀ (r : FIMStreamCompletionRequest) (req : Option HTTPRequest),
      env.BuildStream (fimStreamBuilder c r) ctx = (req, none) →
      env.HandleSendChatCompletionRequest c req = (some resp, none) →
      ∃ s : fimCompletionStream,
        (CreateFIMStreamCompletion env c ctx (some r)).outcome
            = .returned (some s, none) ∧
        s.resp = resp ∧ s.reader.rd = resp.Body ∧ s.reader.r = 0 ∧ s.reader.w = 0 ∧
        (s.ctx, s.cancel) = WithCancel ctx ∧
        (∀ cancelled, ctx.done cancelled = true → s.ctx.done cancelled = true) ∧
        (∀ cancelled, s.ctx.done (s.cancel.call cancelled) = true)) := by
  have hlt : ¬ (400 ≤ resp.StatusCode) := not_le.mpr h
  constructor
  · intro r req hb hs
    simp only [chatStreamBuilder] at hb
    refine ⟨⟨(WithCancel ctx).1, (WithCancel ctx).2, resp, NewReader resp.Body⟩, ?_⟩
    simp [CreateChatCompletionStream, hb, hs, hlt, NewReader, WithCancel, Context.done,
      CancelFunc.call]
    intro cancelled hd
    simp [hd]
  · intro r req hb hs
    simp only [fimStreamBuilder] at hb
    refine ⟨⟨(WithCancel ctx).1, (WithCancel ctx).2, resp, NewReader resp.Body⟩, ?_⟩
    simp [CreateFIMStreamCompletion, hb, hs, hlt, NewReader, WithCancel, Context.done,
      CancelFunc.call]
    intro cancelled hd
    simp [hd]

/-- A run of C2: a 200 answer to both streaming operations. -/
theorem stream_success_session_witness :
    (∃ s : chatCompletionStream,
      (CreateChatCompletionStream (sampleEnv 200) sampleClient (.root 0)
        (some ⟨false, ⟨"x"⟩⟩)).outcome = .returned (some s, 200, none) ∧
      s.resp = sampleResponse 200) ∧
    (∃ s : fimCompletionStream,
      (CreateFIMStreamCompletion (sampleEnv 200) sampleClient (.root 0)
        (some ⟨false, ⟨"x"⟩⟩)).outcome = .returned (some s, none) ∧
      s.resp = sampleResponse 200) :=
  have h := stream_success_session (sampleEnv 200) sampleClient (.root 0)
    (sampleResponse 200) (by decide)
  ⟨(h.1 ⟨false, ⟨"x"⟩⟩ (some ⟨2⟩) rfl rfl).imp fun _ hs => ⟨hs.1, hs.2.1⟩,
   (h.2 ⟨false, ⟨"x"⟩⟩ (some ⟨2⟩) rfl rfl).imp fun _ hs => ⟨hs.1, hs.2.1⟩⟩

/-- C4: on a nil request CreateChatCompletion returns a nil response, status 0
and the error "request cannot be nil", and its trace is empty, so neither the
request builder nor the send operation was invoked; on a request that is not
nil it never returns that error, whatever the collaborators do. -/
theorem chat_nil_request (env : Env) (c : Client) (ctx : Context) :
    (CreateChatCompletion env c ctx none).outcome
        = .returned (none, 0, some (.errorf "request cannot be nil")) ∧
    (CreateChatCompletion env c ctx none).trace = [] ∧
    (∀ (r : ChatCompletionRequest) (res : Option ChatCompletionResponse) (st : Int),
      (CreateChatCompletion env c ctx (some r)).outcome
        ≠ .returned (res, st, some (.errorf "request cannot be nil"))) := by
  refine ⟨rfl, rfl, ?_⟩
  intro r res st
  unfold CreateChatCompletion
  simp only
  split
  · simp
  · split
    · simp
    · simp
    · split
      · cases env.HandleAPIError _ <;> simp
      · split <;> simp

/-- C5: on a request that is not nil, CreateFIMCompletion returns the error
"max tokens must be <= 4000" exactly when MaxTokens exceeds 4000; it then
returns a nil result and its trace is empty, so nothing was built or sent.
Otherwise the call goes on to the request builder.  MaxTokens 4000 passes the
check and MaxTokens 4001 is rejected. -/
theorem fim_max_tokens (env : Env) (c : Client) (ctx : Context) :
    (∀ r : FIMCompletionRequest,
      ((∃ res, (CreateFIMCompletion env c ctx (some r)).outcome
          = .returned (res, some (.errorf "max tokens must be <= 4000"))) ↔
        r.MaxTokens > 4000) ∧
      (r.MaxTokens > 4000 →
        (CreateFIMCompletion env c ctx (some r)).outcome
            = .returned (none, some (.errorf "max tokens must be <= 4000")) ∧
          (CreateFIMCompletion env c ctx (some r)).trace = []) ∧
      (¬ r.MaxTokens > 4000 →
        (CreateFIMCompletion env c ctx (some r)).trace.head?
          = some (.build (fimBuilder c r) ctx))) ∧
    (∀ f : Fields,
      (CreateFIMCompletion env c ctx (some ⟨4000, f⟩)).trace.head?
          = some (.build (fimBuilder c ⟨4000, f⟩) ctx) ∧
      (CreateFIMCompletion env c ctx (some ⟨4001, f⟩)).outcome
          = .returned (none, some (.errorf "max tokens must be <= 4000")) ∧
      (CreateFIMCompletion env c ctx (some ⟨4001, f⟩)).trace = []) := by
  have key : ∀ r : FIMCompletionRequest, ¬ r.MaxTokens > 4000 →
      (CreateFIMCompletion env c ctx (some r)).trace.head?
          = some (.build (fimBuilder c r) ctx) ∧
      ∀ res, (CreateFIMCompletion env c ctx (some r)).outcome
          ≠ .returned (res, some (.errorf "max tokens must be <= 4000")) := by
    intro r hr
    unfold CreateFIMCompletion
    simp only [hr, if_false, Option.isNone_some, Bool.false_eq_true, fimBuilder]
    split
    · simp
    · split
      · simp
      · simp
      · split
        · cases env.HandleAPIError _ <;> simp
        · split <;> simp
  have big : ∀ r : FIMCompletionRequest, r.MaxTokens > 4000 →
      (CreateFIMCompletion env c ctx (some r)).outcome
          = .returned (none, some (.errorf "max tokens must be <= 4000")) ∧
        (CreateFIMCompletion env c ctx (some r)).trace = [] := by
    intro r hr
    simp [CreateFIMCompletion, hr]
  constructor
  · intro r
    refine ⟨⟨?_, fun hr => ⟨none, (big r hr).1⟩⟩, big r, fun hr => (key r hr).1⟩
    rintro ⟨res, hres⟩
    by_contra hr
    exact (key r hr).2 res hres
  · intro f
    exact ⟨(key ⟨4000, f⟩ (by norm_num)).1, big ⟨4001, f⟩ (by norm_num)⟩

/-- A run of C5: MaxTokens 4001 is rejected before anything is built. -/
theorem fim_max_tokens_witness :
    (4001 : Int) > 4000 ∧
    (CreateFIMCompletion (sampleEnv 200) sampleClient (.root 0) (some ⟨4001, ⟨"x"⟩⟩)).outcome
        = .returned (none, some (.errorf "max tokens must be <= 4000")) ∧
    (CreateFIMCompletion (sampleEnv 200) sampleClient (.root 0) (some ⟨4001, ⟨"x"⟩⟩)).trace
        = [] :=
  ⟨by decide,
    ((fim_max_tokens (sampleEnv 200) sampleClient (.root 0)).1 ⟨4001, ⟨"x"⟩⟩).2.1 (by decide)⟩

/-- C3, as the code behaves: on a nil request CreateFIMCompletion,
CreateChatCompletionStream and CreateFIMStreamCompletion do not return at
all.  Each dereferences the request first (request.MaxTokens, request.Stream)
and panics, with no error value produced; only CreateChatCompletion tests for
nil before it touches the request. -/
theorem nil_request_panics (env : Env) (c : Client) (ctx : Context) :
    (CreateFIMCompletion env c ctx none).outcome = .panicked ∧
    (CreateChatCompletionStream env c ctx none).outcome = .panicked ∧
    (CreateFIMStreamCompletion env c ctx none).outcome = .panicked ∧
    (CreateChatCompletion env c ctx none).outcome
        = .returned (none, 0, some (.errorf "request cannot be nil")) :=
  ⟨rfl, rfl, rfl, rfl⟩

/-- C6 fails as stated: a response with status 301 is not 2xx, yet
CreateChatCompletion decodes its body and returns the completion with a nil
error, and CreateChatCompletionStream builds a stream session over it. -/
theorem status_301_not_api_error :
    ¬ (200 ≤ (sampleResponse 301).StatusCode ∧ (sampleResponse 301).StatusCode < 300) ∧
    (CreateChatCompletion (sampleEnv 301) sampleClient (.root 0) (some ⟨⟨"x"⟩⟩)).outcome
        = .returned (some ⟨⟨"chat"⟩⟩, 301, none) ∧
    Event.decodeChat (sampleResponse 301)
        ∈ (CreateChatCompletion (sampleEnv 301) sampleClient (.root 0) (some ⟨⟨"x"⟩⟩)).trace ∧
    (CreateChatCompletionStream (sampleEnv 301) sampleClient (.root 0)
        (some ⟨false, ⟨"x"⟩⟩)).outcome
        = .returned (some ⟨.withCancel (.root 0), ⟨.withCancel (.root 0)⟩, sampleResponse 301,
            NewReader (sampleResponse 301).Body⟩, 301, none) := by
  refine ⟨by decide, rfl, ?_, rfl⟩
  simp [CreateChatCompletion, sampleEnv, sampleResponse]

/-- C6, amended: the threshold is status 400.  For a response with status at
least 400 each of the four operations calls HandleAPIError, returns its error,
decodes nothing and builds no session (the traces are given in full).  For a
response with status below 400, HandleAPIError is not called: the two
non-streaming operations hand the response to their decoder and the two
streaming operations build a session. -/
theorem status_threshold_400 (env : Env) (c : Client) (ctx : Context) (resp : Response)
    (req : Option HTTPRequest)
    (hs : env.HandleSendChatCompletionRequest c req = (some resp, none)) :
    (400 ≤ resp.StatusCode →
      (∀ r, env.Build (chatBuilder c r) ctx = (req, none) →
        (CreateChatCompletion env c ctx (some r)).outcome
            = .returned (none, 0, (env.HandleAPIError resp).map .foreign) ∧
        (CreateChatCompletion env c ctx (some r)).trace
            = [.build (chatBuilder c r) ctx, .send c req, .apiError resp, .close resp.Body]) ∧
      (∀ r, env.BuildStream (chatStreamBuilder c r) ctx = (req, none) →
        (CreateChatCompletionStream env c ctx (some r)).outcome
            = .returned (none, resp.StatusCode, (env.HandleAPIError resp).map .foreign) ∧
        (CreateChatCompletionStream env c ctx (some r)).trace
            = [.buildStream (chatStreamBuilder c r) ctx, .send c req, .apiError resp]) ∧
      (∀ r, ¬ r.MaxTokens > 4000 → env.Build (fimBuilder c r) ctx = (req, none) →
        (CreateFIMCompletion env c ctx (some r)).outcome
            = .returned (none, (env.HandleAPIError resp).map .foreign) ∧
        (CreateFIMCompletion env c ctx (some r)).trace
            = [.build (fimBuilder c r) ctx, .send c req, .apiError resp, .close resp.Body]) ∧
      (∀ r, env.BuildStream (fimStreamBuilder c r) ctx = (req, none) →
        (CreateFIMStreamCompletion env c ctx (some r)).outcome
            = .returned (none, (env.HandleAPIError resp).map .foreign) ∧
        (CreateFIMStreamCompletion env c ctx (some r)).trace
            = [.buildStream (fimStreamBuilder c r) ctx, .send c req, .apiError resp])) ∧
    (resp.StatusCode < 400 →
      (∀ r, env.Build (chatBuilder c r) ctx = (req, none) →
        (CreateChatCompletion env c ctx (some r)).trace
            = [.build (chatBuilder c r) ctx, .send c req, .decodeChat resp,
                .close resp.Body]) ∧
      (∀ r, env.BuildStream (chatStreamBuilder c r) ctx = (req, none) →
        (CreateChatCompletionStream env c ctx (some r)).outcome
            = .returned (some ⟨(WithCancel ctx).1, (WithCancel ctx).2, resp,
                NewReader resp.Body⟩, resp.StatusCode, none) ∧
        (CreateChatCompletionStream env c ctx (some r)).trace
            = [.buildStream (chatStreamBuilder c r) ctx, .send c req, .withCancel ctx,
                .newReader resp.Body]) ∧
      (∀ r, ¬ r.MaxTokens > 4000 → env.Build (fimBuilder c r) ctx = (req, none) →
        (CreateFIMCompletion env c ctx (some r)).trace
            = [.build (fimBuilder c r) ctx, .send c req, .decodeFIM resp, .close resp.Body]) ∧
      (∀ r, env.BuildStream (fimStreamBuilder c r) ctx = (req, none) →
        (CreateFIMStreamCompletion env c ctx (some r)).outcome
            = .returned (some ⟨(WithCancel ctx).1, (WithCancel ctx).2, resp,
                NewReader resp.Body⟩, none) ∧
        (CreateFIMStreamCompletion env c ctx (some r)).trace
            = [.buildStream (fimStreamBuilder c r) ctx, .send c req, .withCancel ctx,
                .newReader resp.Body])) := by
  constructor
  · intro h
    refine ⟨?_, ?_, ?_, ?_⟩
    · intro r hb
      simp only [chatBuilder] at hb
      simp [CreateChatCompletion, chatBuilder, hb, hs, h]
    · intro r hb
      simp only [chatStreamBuilder] at hb
      simp [CreateChatCompletionStream, chatStreamBuilder, hb, hs, h]
    · intro r hr hb
      simp only [fimBuilder] at hb
      simp [CreateFIMCompletion, fimBuilder, hb, hs, h, hr]
    · intro r hb
      simp only [fimStreamBuilder] at hb
      simp [CreateFIMStreamCompletion, fimStreamBuilder, hb, hs, h]
  · intro h
    have hlt : ¬ (400 ≤ resp.StatusCode) := not_le.mpr h
    refine ⟨?_, ?_, ?_, ?_⟩
    · intro r hb
      simp only [chatBuilder] at hb
      unfold CreateChatCompletion
      simp only [hb, hs, chatBuilder, ge_iff_le, hlt, if_false]
      split <;> rfl
    · intro r hb
      simp only [chatStreamBuilder] at hb
      simp [CreateChatCompletionStream, chatStreamBuilder, hb, hs, hlt]
    · intro r hr hb
      simp only [fimBuilder] at hb
      unfold CreateFIMCompletion
      simp only [hb, hs, fimBuilder, ge_iff_le, hlt, hr, if_false, Option.isNone_some,
        Bool.false_eq_true]
      split <;> rfl
    · intro r hb
      simp only [fimStreamBuilder] at hb
      simp [CreateFIMStreamCompletion, fimStreamBuilder, hb, hs, hlt]

/-- A run of the amended C6: a 401 answer is an API error for CreateChatCompletion,
a 301 answer is decoded. -/
theorem status_threshold_400_witness :
    ((CreateChatCompletion (sampleEnv 401) sampleClient (.root 0) (some ⟨⟨"x"⟩⟩)).outcome
        = .returned (none, 0, some (.foreign ⟨401⟩))) ∧
    ((CreateChatCompletion (sampleEnv 301) sampleClient (.root 0) (some ⟨⟨"x"⟩⟩)).trace
        = [.build (chatBuilder sampleClient ⟨⟨"x"⟩⟩) (.root 0), .send sampleClient (some ⟨1⟩),
            .decodeChat (sampleResponse 301), .close (sampleResponse 301).Body]) :=
  ⟨(((status_threshold_400 (sampleEnv 401) sampleClient (.root 0) (sampleResponse 401)
      (some ⟨1⟩) rfl).1 (by decide)).1 ⟨⟨"x"⟩⟩ rfl).1,
   ((status_threshold_400 (sampleEnv 301) sampleClient (.root 0) (sampleResponse 301)
      (some ⟨1⟩) rfl).2 (by decide)).1 ⟨⟨"x"⟩⟩ rfl⟩

/-- C7: on a request that is not nil, both streaming operations end with the
Stream field of the request set to true and every other field as the caller
gave it, however the call ends.  The first thing each does to the outside is
BuildStream on a builder whose body is the request with Stream already true;
the plain Build is never used, every BuildStream in the trace carries that
body, and every send carries the request that BuildStream produced from it. -/
theorem stream_flag_forced (env : Env) (c : Client) (ctx : Context) :
    (∀ r0 : StreamChatCompletionRequest,
      (CreateChatCompletionStream env c ctx (some r0)).request = some ⟨true, r0.fields⟩ ∧
      (CreateChatCompletionStream env c ctx (some r0)).trace.head?
          = some (.buildStream (chatStreamBuilder c r0) ctx) ∧
      (chatStreamBuilder c r0).body = some (.streamChat ⟨true, r0.fields⟩) ∧
      (∀ e ∈ (CreateChatCompletionStream env c ctx (some r0)).trace,
        (∀ b k, e ≠ .build b k) ∧
        (∀ b k, e = .buildStream b k → b.body = some (.streamChat ⟨true, r0.fields⟩)) ∧
        (∀ cl q, e = .send cl q →
          q = (env.BuildStream (chatStreamBuilder c r0) ctx).1))) ∧
    (∀ r0 : FIMStreamCompletionRequest,
      (CreateFIMStreamCompletion env c ctx (some r0)).request = some ⟨true, r0.fields⟩ ∧
      (CreateFIMStreamCompletion env c ctx (some r0)).trace.head?
          = some (.buildStream (fimStreamBuilder c r0) ctx) ∧
      (fimStreamBuilder c r0).body = some (.fimStream ⟨true, r0.fields⟩) ∧
      (∀ e ∈ (CreateFIMStreamCompletion env c ctx (some r0)).trace,
        (∀ b k, e ≠ .build b k) ∧
        (∀ b k, e = .buildStream b k → b.body = some (.fimStream ⟨true, r0.fields⟩)) ∧
        (∀ cl q, e = .send cl q →
          q = (env.BuildStream (fimStreamBuilder c r0) ctx).1))) := by
  constructor
  · intro r0
    refine ⟨?_, ?_, rfl, ?_⟩
    · unfold CreateChatCompletionStream
      simp only
      split
      · rfl
      · split
        · rfl
        · rfl
        · split <;> rfl
    · unfold CreateChatCompletionStream
      simp only [chatStreamBuilder]
      split
      · rfl
      · split
        · rfl
        · rfl
        · split <;> rfl
    · unfold CreateChatCompletionStream
      simp only [chatStreamBuilder]
      split
      · rename_i hb
        simp [hb, RequestBuilder.SetApiType, RequestBuilder.SetBodyFromStruct]
      · rename_i hb
        simp only [RequestBuilder.SetApiType, RequestBuilder.SetBodyFromStruct] at hb
        split
        · simp [hb, RequestBuilder.SetApiType, RequestBuilder.SetBodyFromStruct]
        · simp [hb, RequestBuilder.SetApiType, RequestBuilder.SetBodyFromStruct]
        · split <;> simp [hb, RequestBuilder.SetApiType, RequestBuilder.SetBodyFromStruct]
  · intro r0
    refine ⟨?_, ?_, rfl, ?_⟩
    · unfold CreateFIMStreamCompletion
      simp only
      split
      · rfl
      · split
        · rfl
        · rfl
        · split <;> rfl
    · unfold CreateFIMStreamCompletion
      simp only [fimStreamBuilder]
      split
      · rfl
      · split
        · rfl
        · rfl
        · split <;> rfl
    · unfold CreateFIMStreamCompletion
      simp only [fimStreamBuilder]
      split
      · rename_i hb
        simp [hb, RequestBuilder.SetBodyFromStruct]
      · rename_i hb
        simp only [RequestBuilder.SetBodyFromStruct] at hb
        split
        · simp [hb, RequestBuilder.SetBodyFromStruct]
        · simp [hb, RequestBuilder.SetBodyFromStruct]
        · split <;> simp [hb, RequestBuilder.SetBodyFromStruct]

/-- C8 fails as stated.  With a HandleAPIError that closes the body it is
handed once, a 401 answer to CreateChatCompletion or CreateFIMCompletion ends
with no session returned and the body released twice: once by HandleAPIError
and once by the deferred Close.  With a HandleAPIError that leaves the body
open, a 401 answer to CreateChatCompletionStream ends with no session returned
and the body released zero times.  Either way some exit path does not release
the body exactly once. -/
theorem release_not_exactly_once :
    (CreateChatCompletion (sampleEnv 401) sampleClient (.root 0) (some ⟨⟨"x"⟩⟩)).outcome
        = .returned (none, 0, some (.foreign ⟨401⟩)) ∧
    released (sampleEnv 401) (sampleResponse 401).Body
      (CreateChatCompletion (sampleEnv 401) sampleClient (.root 0) (some ⟨⟨"x"⟩⟩)).trace
        = 2 ∧
    released (sampleEnv 401) (sampleResponse 401).Body
      (CreateFIMCompletion (sampleEnv 401) sampleClient (.root 0) (some ⟨100, ⟨"x"⟩⟩)).trace
        = 2 ∧
    (CreateChatCompletionStream (sampleEnvNoClose 401) sampleClient (.root 0)
        (some ⟨false, ⟨"x"⟩⟩)).outcome = .returned (none, 401, some (.foreign ⟨401⟩)) ∧
    released (sampleEnvNoClose 401) (sampleResponse 401).Body
      (CreateChatCompletionStream (sampleEnvNoClose 401) sampleClient (.root 0)
        (some ⟨false, ⟨"x"⟩⟩)).trace = 0 := by
  refine ⟨rfl, ?_, ?_, rfl, ?_⟩
  · simp [CreateChatCompletion, sampleEnv, sampleResponse, released, Event.releases]
  · simp [CreateFIMCompletion, sampleEnv, sampleResponse, released, Event.releases]
  · simp [CreateChatCompletionStream, sampleEnvNoClose, sampleEnv, sampleResponse, released,
      Event.releases]

/-- C8, amended.  After a send that yielded a response: the two non-streaming
operations call Close on its body themselves exactly once on every exit path,
so the body ends released once more than the collaborator they hand the
response to closes it (HandleAPIError at status 400 and above, the decoder
below).  The two streaming operations never call Close themselves: below
status 400 they return a session holding the response with the body not
released, and at status 400 and above they return no session and the body is
released exactly as many times as HandleAPIError closes it. -/
theorem body_release_counts (env : Env) (c : Client) (ctx : Context) (resp : Response)
    (req : Option HTTPRequest)
    (hs : env.HandleSendChatCompletionRequest c req = (some resp, none)) :
    (∀ r, env.Build (chatBuilder c r) ctx = (req, none) →
      ownCloses resp.Body (CreateChatCompletion env c ctx (some r)).trace = 1 ∧
      (400 ≤ resp.StatusCode →
        released env resp.Body (CreateChatCompletion env c ctx (some r)).trace
          = 1 + env.HandleAPIErrorCloses resp) ∧
      (resp.StatusCode < 400 →
        released env resp.Body (CreateChatCompletion env c ctx (some r)).trace
          = 1 + env.HandleChatCompletionResponseCloses resp)) ∧
    (∀ r, ¬ r.MaxTokens > 4000 → env.Build (fimBuilder c r) ctx = (req, none) →
      ownCloses resp.Body (CreateFIMCompletion env c ctx (some r)).trace = 1 ∧
      (400 ≤ resp.StatusCode →
        released env resp.Body (CreateFIMCompletion env c ctx (some r)).trace
          = 1 + env.HandleAPIErrorCloses resp) ∧
      (resp.StatusCode < 400 →
        released env resp.Body (CreateFIMCompletion env c ctx (some r)).trace
          = 1 + env.HandleFIMCompletionRequestCloses resp)) ∧
    (∀ r, env.BuildStream (chatStreamBuilder c r) ctx = (req, none) →
      ownCloses resp.Body (CreateChatCompletionStream env c ctx (some r)).trace = 0 ∧
      (400 ≤ resp.StatusCode →
        (CreateChatCompletionStream env c ctx (some r)).outcome
          = .returned (none, resp.StatusCode, (env.HandleAPIError resp).map .foreign) ∧
        released env resp.Body (CreateChatCompletionStream env c ctx (some r)).trace
          = env.HandleAPIErrorCloses resp) ∧
      (resp.StatusCode < 400 →
        (CreateChatCompletionStream env c ctx (some r)).outcome
          = .returned (some ⟨(WithCancel ctx).1, (WithCancel ctx).2, resp,
              NewReader resp.Body⟩, resp.StatusCode, none) ∧
        released env resp.Body (CreateChatCompletionStream env c ctx (some r)).trace = 0)) ∧
    (∀ r, env.BuildStream (fimStreamBuilder c r) ctx = (req, none) →
      ownCloses resp.Body (CreateFIMStreamCompletion env c ctx (some r)).trace = 0 ∧
      (400 ≤ resp.StatusCode →
        (CreateFIMStreamCompletion env c ctx (some r)).outcome
          = .returned (none, (env.HandleAPIError resp).map .foreign) ∧
        released env resp.Body (CreateFIMStreamCompletion env c ctx (some r)).trace
          = env.HandleAPIErrorCloses resp) ∧
      (resp.StatusCode < 400 →
        (CreateFIMStreamCompletion env c ctx (some r)).outcome
          = .returned (some ⟨(WithCancel ctx).1, (WithCancel ctx).2, resp,
              NewReader resp.Body⟩, none) ∧
        released env resp.Body (CreateFIMStreamCompletion env c ctx (some r)).trace = 0)) := by
  refine ⟨?_, ?_, ?_, ?_⟩
  · intro r hb
    simp only [chatBuilder] at hb
    by_cases h : 400 ≤ resp.StatusCode
    · have hlt : ¬ resp.StatusCode < 400 := not_lt.mpr h
      simp [CreateChatCompletion, hb, hs, h, hlt, ownCloses, released, Event.releases]
      omega
    · have hlt : resp.StatusCode < 400 := not_le.mp h
      unfold CreateChatCompletion
      simp only [hb, hs, ge_iff_le, h, if_false]
      split <;>
        simp [ownCloses, released, Event.releases, hlt, h] <;> omega
  · intro r hr hb
    simp only [fimBuilder] at hb
    by_cases h : 400 ≤ resp.StatusCode
    · have hlt : ¬ resp.StatusCode < 400 := not_lt.mpr h
      simp [CreateFIMCompletion, hr, hb, hs, h, hlt, ownCloses, released, Event.releases]
      omega
    · have hlt : resp.StatusCode < 400 := not_le.mp h
      unfold CreateFIMCompletion
      simp only [hb, hs, hr, ge_iff_le, h, if_false, Option.isNone_some, Bool.false_eq_true]
      split <;>
        simp [ownCloses, released, Event.releases, hlt, h] <;> omega
  · intro r hb
    simp only [chatStreamBuilder] at hb
    by_cases h : 400 ≤ resp.StatusCode
    · have hlt : ¬ resp.StatusCode < 400 := not_lt.mpr h
      simp [CreateChatCompletionStream, hb, hs, h, hlt, ownCloses, released, Event.releases]
    · have hlt : resp.StatusCode < 400 := not_le.mp h
      simp [CreateChatCompletionStream, hb, hs, h, hlt, ownCloses, released, Event.releases]
  · intro r hb
    simp only [fimStreamBuilder] at hb
    by_cases h : 400 ≤ resp.StatusCode
    · have hlt : ¬ resp.StatusCode < 400 := not_lt.mpr h
      simp [CreateFIMStreamCompletion, hb, hs, h, hlt, ownCloses, released, Event.releases]
    · have hlt : resp.StatusCode < 400 := not_le.mp h
      simp [CreateFIMStreamCompletion, hb, hs, h, hlt, ownCloses, released, Event.releases]

/-- A run of the amended C8 on a 401 answer, with a HandleAPIError that closes
the body once: the streaming operation ends with the body released once, the
non-streaming one with the body released twice. -/
theorem body_release_counts_witness :
    released (sampleEnv 401) (sampleResponse 401).Body
      (CreateChatCompletionStream (sampleEnv 401) sampleClient (.root 0)
        (some ⟨false, ⟨"x"⟩⟩)).trace = 1 ∧
    released (sampleEnv 401) (sampleResponse 401).Body
      (CreateChatCompletion (sampleEnv 401) sampleClient (.root 0) (some ⟨⟨"x"⟩⟩)).trace
        = 1 + 1 :=
  ⟨(((body_release_counts (sampleEnv 401) sampleClient (.root 0) (sampleResponse 401)
      (some ⟨2⟩) rfl).2.2.1 ⟨false, ⟨"x"⟩⟩ rfl).2.1 (by decide)).2,
   ((body_release_counts (sampleEnv 401) sampleClient (.root 0) (sampleResponse 401)
      (some ⟨1⟩) rfl).1 ⟨⟨"x"⟩⟩ rfl).2.1 (by decide)⟩

/-- With collaborators in good order CreateChatCompletion returns a response
exactly when it returns no error, and passes on every collaborator failure. -/
lemma chat_result_xor_error (env : Env) (c : Client) (ctx : Context)
    (hw : env.WellBehaved) (r : ChatCompletionRequest) :
    ∃ res st err,
      (CreateChatCompletion env c ctx (some r)).outcome = .returned (res, st, err) ∧
      (res.isSome = true ↔ err = none) ∧
      (∀ e, (env.Build (chatBuilder c r) ctx).2 = some e →
        ∃ g, err = some g ∧ g.carries (.foreign e) = true) ∧
      (∀ req e, env.Build (chatBuilder c r) ctx = (req, none) →
        (env.HandleSendChatCompletionRequest c req).2 = some e →
        ∃ g, err = some g ∧ g.carries (.foreign e) = true) ∧
      (∀ req resp e, env.Build (chatBuilder c r) ctx = (req, none) →
        env.HandleSendChatCompletionRequest c req = (some resp, none) →
        resp.StatusCode < 400 → (env.HandleChatCompletionResponse resp).2 = some e →
        ∃ g, err = some g ∧ g.carries (.foreign e) = true) := by
  rcases hBe : env.Build (chatBuilder c r) ctx with ⟨req, _ | e⟩
  · have hS := hw.send c req
    rcases hSe : env.HandleSendChatCompletionRequest c req with ⟨resp, _ | e⟩
    · rcases resp with _ | resp
      · simp [wellBehaved, hSe] at hS
      · by_cases h : 400 ≤ resp.StatusCode
        · have hA := hw.apiError resp
          obtain ⟨a, ha⟩ := Option.isSome_iff_exists.mp hA
          refine ⟨none, 0, some (.foreign a), ?_, by simp, by simp, ?_, ?_⟩
          · simp only [chatBuilder] at hBe
            simp [CreateChatCompletion, hBe, hSe, h, ha]
          · intro req2 e hq
            simp only [Prod.mk.injEq] at hq
            simp [← hq.1, hSe]
          · intro req2 resp2 e hq hs2 hlt
            simp only [Prod.mk.injEq] at hq
            rw [← hq.1, hSe] at hs2
            simp only [Prod.mk.injEq, Option.some.injEq] at hs2
            rw [← hs2.1] at hlt
            omega
        · have hD := hw.decodeChat resp
          rcases hDe : env.HandleChatCompletionResponse resp with ⟨out, _ | e⟩
          · rcases out with _ | out
            · simp [wellBehaved, hDe] at hD
            · refine ⟨some out, resp.StatusCode, none, ?_, by simp, by simp, ?_, ?_⟩
              · simp only [chatBuilder] at hBe
                simp [CreateChatCompletion, hBe, hSe, h, hDe]
              · intro req2 e hq
                simp only [Prod.mk.injEq] at hq
                simp [← hq.1, hSe]
              · intro req2 resp2 e hq hs2 _
                simp only [Prod.mk.injEq] at hq
                rw [← hq.1, hSe] at hs2
                simp only [Prod.mk.injEq, Option.some.injEq] at hs2
                simp [← hs2.1, hDe]
          · refine ⟨none, 0, some (.wrapf "error decoding response: %w" (.foreign e)),
              ?_, by simp, by simp, ?_, ?_⟩
            · simp only [chatBuilder] at hBe
              simp [CreateChatCompletion, hBe, hSe, h, hDe]
            · intro req2 e2 hq
              simp only [Prod.mk.injEq] at hq
              simp [← hq.1, hSe]
            · intro req2 resp2 e2 hq hs2 _
              simp only [Prod.mk.injEq] at hq
              rw [← hq.1, hSe] at hs2
              simp only [Prod.mk.injEq, Option.some.injEq] at hs2
              simp [← hs2.1, hDe, GoError.carries]
    · refine ⟨none, 0, some (.wrapf "error sending request: %w" (.foreign e)),
        ?_, by simp, by simp, ?_, ?_⟩
      · simp only [chatBuilder] at hBe
        simp [CreateChatCompletion, hBe, hSe]
      · intro req2 e2 hq
        simp only [Prod.mk.injEq] at hq
        simp [← hq.1, hSe, GoError.carries]
      · intro req2 resp2 e2 hq hs2
        simp only [Prod.mk.injEq] at hq
        rw [← hq.1, hSe] at hs2
        simp at hs2
  · refine ⟨none, 0, some (.wrapf "error building request: %w" (.foreign e)),
      ?_, by simp, ?_, ?_, ?_⟩
    · simp only [chatBuilder] at hBe
      simp [CreateChatCompletion, hBe]
    · simp [GoError.carries]
    · intro req2 e2 hq
      simp at hq
    · intro req2 resp2 e2 hq
      simp at hq

/-- With collaborators in good order CreateFIMCompletion returns a response
exactly when it returns no error, and passes on every collaborator failure. -/
lemma fim_result_xor_error (env : Env) (c : Client) (ctx : Context)
    (hw : env.WellBehaved) (r : FIMCompletionRequest) :
    ∃ res err,
      (CreateFIMCompletion env c ctx (some r)).outcome = .returned (res, err) ∧
      (res.isSome = true ↔ err = none) ∧
      (¬ r.MaxTokens > 4000 →
        (∀ e, (env.Build (fimBuilder c r) ctx).2 = some e →
          ∃ g, err = some g ∧ g.carries (.foreign e) = true) ∧
        (∀ req e, env.Build (fimBuilder c r) ctx = (req, none) →
          (env.HandleSendChatCompletionRequest c req).2 = some e →
          ∃ g, err = some g ∧ g.carries (.foreign e) = true) ∧
        (∀ req resp e, env.Build (fimBuilder c r) ctx = (req, none) →
          env.HandleSendChatCompletionRequest c req = (some resp, none) →
          resp.StatusCode < 400 → (env.HandleFIMCompletionRequest resp).2 = some e →
          ∃ g, err = some g ∧ g.carries (.foreign e) = true)) := by
  by_cases hm : r.MaxTokens > 4000
  · exact ⟨none, some (.errorf "max tokens must be <= 4000"),
      by simp [CreateFIMCompletion, hm], by simp, fun h => absurd hm h⟩
  rcases hBe : env.Build (fimBuilder c r) ctx with ⟨req, _ | e⟩
  · have hS := hw.send c req
    rcases hSe : env.HandleSendChatCompletionRequest c req with ⟨resp, _ | e⟩
    · rcases resp with _ | resp
      · simp [wellBehaved, hSe] at hS
      · by_cases h : 400 ≤ resp.StatusCode
        · have hA := hw.apiError resp
          obtain ⟨a, ha⟩ := Option.isSome_iff_exists.mp hA
          refine ⟨none, some (.foreign a), ?_, by simp, fun _ => ⟨by simp, ?_, ?_⟩⟩
          · simp only [fimBuilder] at hBe
            simp [CreateFIMCompletion, hm, hBe, hSe, h, ha]
          · intro req2 e hq
            simp only [Prod.mk.injEq] at hq
            simp [← hq.1, hSe]
          · intro req2 resp2 e hq hs2 hlt
            simp only [Prod.mk.injEq] at hq
            rw [← hq.1, hSe] at hs2
            simp only [Prod.mk.injEq, Option.some.injEq] at hs2
            rw [← hs2.1] at hlt
            omega
        · have hD := hw.decodeFIM resp
          rcases hDe : env.HandleFIMCompletionRequest resp with ⟨out, _ | e⟩
          · rcases out with _ | out
            · simp [wellBehaved, hDe] at hD
            · refine ⟨some out, none, ?_, by simp, fun _ => ⟨by simp, ?_, ?_⟩⟩
              · simp only [fimBuilder] at hBe
                simp [CreateFIMCompletion, hm, hBe, hSe, h, hDe]
              · intro req2 e hq
                simp only [Prod.mk.injEq] at hq
                simp [← hq.1, hSe]
              · intro req2 resp2 e hq hs2 _
                simp only [Prod.mk.injEq] at hq
                rw [← hq.1, hSe] at hs2
                simp only [Prod.mk.injEq, Option.some.injEq] at hs2
                simp [← hs2.1, hDe]
          · refine ⟨none, some (.wrapf "error decoding response: %w" (.foreign e)),
              ?_, by simp, fun _ => ⟨by simp, ?_, ?_⟩⟩
            · simp only [fimBuilder] at hBe
              simp [CreateFIMCompletion, hm, hBe, hSe, h, hDe]
            · intro req2 e2 hq
              simp only [Prod.mk.injEq] at hq
              simp [← hq.1, hSe]
            · intro req2 resp2 e2 hq hs2 _
              simp only [Prod.mk.injEq] at hq
              rw [← hq.1, hSe] at hs2
              simp only [Prod.mk.injEq, Option.some.injEq] at hs2
              simp [← hs2.1, hDe, GoError.carries]
    · refine ⟨none, some (.wrapf "error sending request: %w" (.foreign e)),
        ?_, by simp, fun _ => ⟨by simp, ?_, ?_⟩⟩
      · simp only [fimBuilder] at hBe
        simp [CreateFIMCompletion, hm, hBe, hSe]
      · intro req2 e2 hq
        simp only [Prod.mk.injEq] at hq
        simp [← hq.1, hSe, GoError.carries]
      · intro req2 resp2 e2 hq hs2
        simp only [Prod.mk.injEq] at hq
        rw [← hq.1, hSe] at hs2
        simp at hs2
  · refine ⟨none, some (.wrapf "error building request: %w" (.foreign e)),
      ?_, by simp, fun _ => ⟨?_, ?_, ?_⟩⟩
    · simp only [fimBuilder] at hBe
      simp [CreateFIMCompletion, hm, hBe]
    · simp [GoError.carries]
    · intro req2 e2 hq
      simp at hq
    · intro req2 resp2 e2 hq
      simp at hq

/-- With collaborators in good order CreateChatCompletionStream returns a
stream exactly when it returns no error, and passes on every collaborator
failure. -/
lemma chat_stream_result_xor_error (env : Env) (c : Client) (ctx : Context)
    (hw : env.WellBehaved) (r : StreamChatCompletionRequest) :
    ∃ res st err,
      (CreateChatCompletionStream env c ctx (some r)).outcome = .returned (res, st, err) ∧
      (res.isSome = true ↔ err = none) ∧
      (∀ e, (env.BuildStream (chatStreamBuilder c r) ctx).2 = some e →
        ∃ g, err = some g ∧ g.carries (.foreign e) = true) ∧
      (∀ req e, env.BuildStream (chatStreamBuilder c r) ctx = (req, none) →
        (env.HandleSendChatCompletionRequest c req).2 = some e →
        ∃ g, err = some g ∧ g.carries (.foreign e) = true) := by
  rcases hBe : env.BuildStream (chatStreamBuilder c r) ctx with ⟨req, _ | e⟩
  · have hS := hw.send c req
    rcases hSe : env.HandleSendChatCompletionRequest c req with ⟨resp, _ | e⟩
    · rcases resp with _ | resp
      · simp [wellBehaved, hSe] at hS
      · by_cases h : 400 ≤ resp.StatusCode
        · have hA := hw.apiError resp
          obtain ⟨a, ha⟩ := Option.isSome_iff_exists.mp hA
          refine ⟨none, resp.StatusCode, some (.foreign a), ?_, by simp, by simp, ?_⟩
          · simp only [chatStreamBuilder] at hBe
            simp [CreateChatCompletionStream, hBe, hSe, h, ha]
          · intro req2 e hq
            simp only [Prod.mk.injEq] at hq
            simp [← hq.1, hSe]
        · refine ⟨some ⟨(WithCancel ctx).1, (WithCancel ctx).2, resp, NewReader resp.Body⟩,
            resp.StatusCode, none, ?_, by simp, by simp, ?_⟩
          · simp only [chatStreamBuilder] at hBe
            simp [CreateChatCompletionStream, hBe, hSe, h]
          · intro req2 e hq
            simp only [Prod.mk.injEq] at hq
            simp [← hq.1, hSe]
    · refine ⟨none, 0, some (.foreign e), ?_, by simp, by simp, ?_⟩
      · simp only [chatStreamBuilder] at hBe
        simp [CreateChatCompletionStream, hBe, hSe]
      · intro req2 e2 hq
        simp only [Prod.mk.injEq] at hq
        simp [← hq.1, hSe, GoError.carries]
  · refine ⟨none, 0, some (.wrapf "error building request: %w" (.foreign e)),
      ?_, by simp, ?_, ?_⟩
    · simp only [chatStreamBuilder] at hBe
      simp [CreateChatCompletionStream, hBe]
    · simp [GoError.carries]
    · intro req2 e2 hq
      simp at hq

/-- With collaborators in good order CreateFIMStreamCompletion returns a
stream exactly when it returns no error, and passes on every collaborator
failure. -/
lemma fim_stream_result_xor_error (env : Env) (c : Client) (ctx : Context)
    (hw : env.WellBehaved) (r : FIMStreamCompletionRequest) :
    ∃ res err,
      (CreateFIMStreamCompletion env c ctx (some r)).outcome = .returned (res, err) ∧
      (res.isSome = true ↔ err = none) ∧
      (∀ e, (env.BuildStream (fimStreamBuilder c r) ctx).2 = some e →
        ∃ g, err = some g ∧ g.carries (.foreign e) = true) ∧
      (∀ req e, env.BuildStream (fimStreamBuilder c r) ctx = (req, none) →
        (env.HandleSendChatCompletionRequest c req).2 = some e →
        ∃ g, err = some g ∧ g.carries (.foreign e) = true) := by
  rcases hBe : env.BuildStream (fimStreamBuilder c r) ctx with ⟨req, _ | e⟩
  · have hS := hw.send c req
    rcases hSe : env.HandleSendChatCompletionRequest c req with ⟨resp, _ | e⟩
    · rcases resp with _ | resp
      · simp [wellBehaved, hSe] at hS
      · by_cases h : 400 ≤ resp.StatusCode
        · have hA := hw.apiError resp
          obtain ⟨a, ha⟩ := Option.isSome_iff_exists.mp hA
          refine ⟨none, some (.foreign a), ?_, by simp, by simp, ?_⟩
          · simp only [fimStreamBuilder] at hBe
            simp [CreateFIMStreamCompletion, hBe, hSe, h, ha]
          · intro req2 e hq
            simp only [Prod.mk.injEq] at hq
            simp [← hq.1, hSe]
        · refine ⟨some ⟨(WithCancel ctx).1, (WithCancel ctx).2, resp, NewReader resp.Body⟩,
            none, ?_, by simp, by simp, ?_⟩
          · simp only [fimStreamBuilder] at hBe
            simp [CreateFIMStreamCompletion, hBe, hSe, h]
          · intro req2 e hq
            simp only [Prod.mk.injEq] at hq
            simp [← hq.1, hSe]
    · refine ⟨none, some (.foreign e), ?_, by simp, by simp, ?_⟩
      · simp only [fimStreamBuilder] at hBe
        simp [CreateFIMStreamCompletion, hBe, hSe]
      · intro req2 e2 hq
        simp only [Prod.mk.injEq] at hq
        simp [← hq.1, hSe, GoError.carries]
  · refine ⟨none, some (.wrapf "error building request: %w" (.foreign e)),
      ?_, by simp, ?_, ?_⟩
    · simp only [fimStreamBuilder] at hBe
      simp [CreateFIMStreamCompletion, hBe]
    · simp [GoError.carries]
    · intro req2 e2 hq
      simp at hq

/-- The sample collaborators are in good order. -/
lemma sampleEnv_wellBehaved (status : Int) : (sampleEnv status).WellBehaved where
  build := fun _ _ => Or.inl ⟨rfl, rfl⟩
  buildStream := fun _ _ => Or.inl ⟨rfl, rfl⟩
  send := fun _ _ => Or.inl ⟨rfl, rfl⟩
  apiError := fun _ => rfl
  decodeChat := fun _ => Or.inl ⟨rfl, rfl⟩
  decodeFIM := fun _ => Or.inl ⟨rfl, rfl⟩

/-- C9: with every collaborator in good order (a result that is not nil with
a nil error, or an error that is not nil), each of the four operations, on a
request that is not nil, returns: its result or stream is not nil exactly
when its error is nil.  Whenever the builder, the send or the decoder fails,
the returned error is not nil and carries the error of that collaborator (it
is that error or wraps it).  For CreateFIMCompletion the collaborators are
reached only when MaxTokens is at most 4000. -/
theorem result_xor_error (env : Env) (c : Client) (ctx : Context) (hw : env.WellBehaved) :
    (∀ r : ChatCompletionRequest, ∃ res st err,
      (CreateChatCompletion env c ctx (some r)).outcome = .returned (res, st, err) ∧
      (res.isSome = true ↔ err = none) ∧
      (∀ e, (env.Build (chatBuilder c r) ctx).2 = some e →
        ∃ g, err = some g ∧ g.carries (.foreign e) = true) ∧
      (∀ req e, env.Build (chatBuilder c r) ctx = (req, none) →
        (env.HandleSendChatCompletionRequest c req).2 = some e →
        ∃ g, err = some g ∧ g.carries (.foreign e) = true) ∧
      (∀ req resp e, env.Build (chatBuilder c r) ctx = (req, none) →
        env.HandleSendChatCompletionRequest c req = (some resp, none) →
        resp.StatusCode < 400 → (env.HandleChatCompletionResponse resp).2 = some e →
        ∃ g, err = some g ∧ g.carries (.foreign e) = true)) ∧
    (∀ r : StreamChatCompletionRequest, ∃ res st err,
      (CreateChatCompletionStream env c ctx (some r)).outcome = .returned (res, st, err) ∧
      (res.isSome = true ↔ err = none) ∧
      (∀ e, (env.BuildStream (chatStreamBuilder c r) ctx).2 = some e →
        ∃ g, err = some g ∧ g.carries (.foreign e) = true) ∧
      (∀ req e, env.BuildStream (chatStreamBuilder c r) ctx = (req, none) →
        (env.HandleSendChatCompletionRequest c req).2 = some e →
        ∃ g, err = some g ∧ g.carries (.foreign e) = true)) ∧
    (∀ r : FIMCompletionRequest, ∃ res err,
      (CreateFIMCompletion env c ctx (some r)).outcome = .returned (res, err) ∧
      (res.isSome = true ↔ err = none) ∧
      (¬ r.MaxTokens > 4000 →
        (∀ e, (env.Build (fimBuilder c r) ctx).2 = some e →
          ∃ g, err = some g ∧ g.carries (.foreign e) = true) ∧
        (∀ req e, env.Build (fimBuilder c r) ctx = (req, none) →
          (env.HandleSendChatCompletionRequest c req).2 = some e →
          ∃ g, err = some g ∧ g.carries (.foreign e) = true) ∧
        (∀ req resp e, env.Build (fimBuilder c r) ctx = (req, none) →
          env.HandleSendChatCompletionRequest c req = (some resp, none) →
          resp.StatusCode < 400 → (env.HandleFIMCompletionRequest resp).2 = some e →
          ∃ g, err = some g ∧ g.carries (.foreign e) = true))) ∧
    (∀ r : FIMStreamCompletionRequest, ∃ res err,
      (CreateFIMStreamCompletion env c ctx (some r)).outcome = .returned (res, err) ∧
      (res.isSome = true ↔ err = none) ∧
      (∀ e, (env.BuildStream (fimStreamBuilder c r) ctx).2 = some e →
        ∃ g, err = some g ∧ g.carries (.foreign e) = true) ∧
      (∀ req e, env.BuildStream (fimStreamBuilder c r) ctx = (req, none) →
        (env.HandleSendChatCompletionRequest c req).2 = some e →
        ∃ g, err = some g ∧ g.carries (.foreign e) = true)) :=
  ⟨chat_result_xor_error env c ctx hw, chat_stream_result_xor_error env c ctx hw,
    fim_result_xor_error env c ctx hw, fim_stream_result_xor_error env c ctx hw⟩

/-- A run of C9 with the sample collaborators and a 200 answer. -/
theorem result_xor_error_witness :
    (sampleEnv 200).WellBehaved ∧
    ∃ res st err,
      (CreateChatCompletion (sampleEnv 200) sampleClient (.root 0) (some ⟨⟨"x"⟩⟩)).outcome
        = .returned (res, st, err) ∧
      (res.isSome = true ↔ err = none) :=
  ⟨sampleEnv_wellBehaved 200,
    let ⟨res, st, err, h1, h2, _⟩ :=
      (result_xor_error (sampleEnv 200) sampleClient (.root 0)
        (sampleEnv_wellBehaved 200)).1 ⟨⟨"x"⟩⟩
    ⟨res, st, err, h1, h2⟩⟩

/-- C10 fails as stated.  A response with status 0 whose body the decoder
rejects makes CreateChatCompletion return the integer 0, which is the status
of the response, next to an error that is not nil.  A response with status 0
makes CreateChatCompletionStream return 0 with a session and a nil error,
though the builder and the send both succeeded.  And a HandleAPIError that
returns a nil error, which its signature allows, makes CreateChatCompletion
return a nil error with the integer 0 on a response with status 500. -/
theorem status_zero_not_told_apart :
    (CreateChatCompletion (sampleEnvDecodeFails 0) sampleClient (.root 0)
        (some ⟨⟨"x"⟩⟩)).outcome
      = .returned (none, (sampleResponse 0).StatusCode,
          some (.wrapf "error decoding response: %w" (.foreign ⟨9⟩))) ∧
    (sampleEnv 0).BuildStream (chatStreamBuilder sampleClient ⟨false, ⟨"x"⟩⟩) (.root 0)
      = (some ⟨2⟩, none) ∧
    (sampleEnv 0).HandleSendChatCompletionRequest sampleClient (some ⟨2⟩)
      = (some (sampleResponse 0), none) ∧
    (CreateChatCompletionStream (sampleEnv 0) sampleClient (.root 0)
        (some ⟨false, ⟨"x"⟩⟩)).outcome
      = .returned (some ⟨.withCancel (.root 0), ⟨.withCancel (.root 0)⟩, sampleResponse 0,
          NewReader (sampleResponse 0).Body⟩, 0, none) ∧
    (CreateChatCompletion (sampleEnvNilAPIError 500) sampleClient (.root 0)
        (some ⟨⟨"x"⟩⟩)).outcome = .returned (none, 0, none) ∧
    (0 : Int) ≠ (sampleResponse 500).StatusCode :=
  ⟨rfl, rfl, rfl, rfl, rfl, by decide⟩

/-- C10, amended.  The integer CreateChatCompletion returns is 0 whenever it
returns an error that is not nil.  With a response in hand: on status at least
400 it returns 0 next to the result of HandleAPIError; on status below 400 a
nil error comes with the status of the response; and when HandleAPIError gives
an error that is not nil and the status is not 0, the integer is the status of
the response exactly when the error is nil.  CreateChatCompletionStream, with
a response in hand, always returns the status of that response, next to the
result of HandleAPIError on status at least 400; it returns 0 when the builder
or the send failed; and when it returns 0, the builder failed, the send
failed, or the status of the response is itself 0. -/
theorem chat_status_zero_on_failure (env : Env) (c : Client) (ctx : Context) :
    (∀ request res st err,
      (CreateChatCompletion env c ctx request).outcome = .returned (res, st, err) →
      err ≠ none → st = 0) ∧
    (∀ r req resp, env.Build (chatBuilder c r) ctx = (req, none) →
      env.HandleSendChatCompletionRequest c req = (some resp, none) →
      ∃ res st err,
        (CreateChatCompletion env c ctx (some r)).outcome = .returned (res, st, err) ∧
        (400 ≤ resp.StatusCode → st = 0 ∧ err = (env.HandleAPIError resp).map .foreign) ∧
        (resp.StatusCode < 400 → err = none → st = resp.StatusCode) ∧
        ((env.HandleAPIError resp).isSome = true → resp.StatusCode ≠ 0 →
          (st = resp.StatusCode ↔ err = none))) ∧
    (∀ r req resp, env.BuildStream (chatStreamBuilder c r) ctx = (req, none) →
      env.HandleSendChatCompletionRequest c req = (some resp, none) →
      ∃ res err,
        (CreateChatCompletionStream env c ctx (some r)).outcome
          = .returned (res, resp.StatusCode, err) ∧
        (400 ≤ resp.StatusCode → res = none ∧ err = (env.HandleAPIError resp).map .foreign)) ∧
    (∀ r res st err,
      (CreateChatCompletionStream env c ctx (some r)).outcome = .returned (res, st, err) →
      (st = 0 ∧ ((env.BuildStream (chatStreamBuilder c r) ctx).2.isSome = true ∨
        (env.HandleSendChatCompletionRequest c
          (env.BuildStream (chatStreamBuilder c r) ctx).1).2.isSome = true)) ∨
      (∃ resp, env.HandleSendChatCompletionRequest c
          (env.BuildStream (chatStreamBuilder c r) ctx).1 = (some resp, none) ∧
        st = resp.StatusCode)) ∧
    (∀ r e, (env.BuildStream (chatStreamBuilder c r) ctx).2 = some e →
      (CreateChatCompletionStream env c ctx (some r)).outcome
        = .returned (none, 0, some (.wrapf "error building request: %w" (.foreign e)))) ∧
    (∀ r req e, env.BuildStream (chatStreamBuilder c r) ctx = (req, none) →
      (env.HandleSendChatCompletionRequest c req).2 = some e →
      (CreateChatCompletionStream env c ctx (some r)).outcome
        = .returned (none, 0, some (.foreign e))) ∧
    (∀ r res err,
      (CreateChatCompletionStream env c ctx (some r)).outcome = .returned (res, 0, err) →
      (env.BuildStream (chatStreamBuilder c r) ctx).2.isSome = true ∨
      (env.HandleSendChatCompletionRequest c
        (env.BuildStream (chatStreamBuilder c r) ctx).1).2.isSome = true ∨
      (∃ resp, env.HandleSendChatCompletionRequest c
          (env.BuildStream (chatStreamBuilder c r) ctx).1 = (some resp, none) ∧
        resp.StatusCode = 0)) := by
  refine ⟨?_, ?_, ?_, ?_, ?_, ?_, ?_⟩
  · intro request res st err
    unfold CreateChatCompletion
    cases request with
    | none => simp; intro _ h _ _; exact h.symm
    | some r =>
      simp only
      split
      · simp; intro _ h _ _; exact h.symm
      · split
        · simp; intro _ h _ _; exact h.symm
        · simp
        · split
          · simp; intro _ h _ _; exact h.symm
          · split
            · simp; intro _ h _ _; exact h.symm
            · simp; intro _ _ h; simp [← h]
  · intro r req resp hb hs
    simp only [chatBuilder] at hb
    by_cases h : 400 ≤ resp.StatusCode
    · refine ⟨none, 0, (env.HandleAPIError resp).map .foreign, ?_, fun _ => ⟨rfl, rfl⟩,
        fun hlt => by omega, ?_⟩
      · simp [CreateChatCompletion, hb, hs, h]
      · intro hA hne
        obtain ⟨a, ha⟩ := Option.isSome_iff_exists.mp hA
        simp [ha]
        exact fun h0 => hne h0.symm
    · rcases hDe : env.HandleChatCompletionResponse resp with ⟨out, _ | e⟩
      · refine ⟨out, resp.StatusCode, none, ?_, fun h4 => absurd h4 h, fun _ _ => rfl, ?_⟩
        · simp [CreateChatCompletion, hb, hs, h, hDe]
        · simp
      · refine ⟨none, 0, some (.wrapf "error decoding response: %w" (.foreign e)), ?_,
          fun h4 => absurd h4 h, fun _ hn => by simp at hn, ?_⟩
        · simp [CreateChatCompletion, hb, hs, h, hDe]
        · intro _ hne
          simp
          exact fun h0 => hne h0.symm
  · intro r req resp hb hs
    simp only [chatStreamBuilder] at hb
    by_cases h : 400 ≤ resp.StatusCode
    · exact ⟨none, (env.HandleAPIError resp).map .foreign,
        by simp [CreateChatCompletionStream, hb, hs, h], fun _ => ⟨rfl, rfl⟩⟩
    · exact ⟨some ⟨(WithCancel ctx).1, (WithCancel ctx).2, resp, NewReader resp.Body⟩, none,
        by simp [CreateChatCompletionStream, hb, hs, h], fun h4 => absurd h4 h⟩
  · intro r res st err
    rcases hBe : env.BuildStream (chatStreamBuilder c r) ctx with ⟨req, _ | e⟩
    · rcases hSe : env.HandleSendChatCompletionRequest c req with ⟨resp, _ | e⟩
      · rcases resp with _ | resp
        · simp only [chatStreamBuilder] at hBe
          simp [CreateChatCompletionStream, hBe, hSe]
        · simp only [chatStreamBuilder] at hBe
          by_cases h : 400 ≤ resp.StatusCode
          · simp [CreateChatCompletionStream, hBe, hSe, h]
            intro _ hst _
            exact hst.symm
          · simp [CreateChatCompletionStream, hBe, hSe, h]
            intro _ hst _
            exact hst.symm
      · simp only [chatStreamBuilder] at hBe
        simp [CreateChatCompletionStream, hBe, hSe]
        intro _ hst _
        exact hst.symm
    · simp only [chatStreamBuilder] at hBe
      simp [CreateChatCompletionStream, hBe]
      intro _ hst _
      exact Or.inl hst.symm

  · intro r e hb
    rcases hBe : env.BuildStream (chatStreamBuilder c r) ctx with ⟨req, e2⟩
    rw [hBe] at hb
    simp only at hb
    subst hb
    simp only [chatStreamBuilder] at hBe
    simp [CreateChatCompletionStream, hBe]
  · intro r req e hb hsd
    rcases hSe : env.HandleSendChatCompletionRequest c req with ⟨resp, e2⟩
    rw [hSe] at hsd
    simp only at hsd
    subst hsd
    simp only [chatStreamBuilder] at hb
    simp [CreateChatCompletionStream, hb, hSe]
  · intro r res err
    rcases hBe : env.BuildStream (chatStreamBuilder c r) ctx with ⟨req, _ | e⟩
    · rcases hSe : env.HandleSendChatCompletionRequest c req with ⟨resp, _ | e⟩
      · rcases resp with _ | resp
        · simp only [chatStreamBuilder] at hBe
          simp [CreateChatCompletionStream, hBe, hSe]
        · simp only [chatStreamBuilder] at hBe
          by_cases h : 400 ≤ resp.StatusCode
          · simp [CreateChatCompletionStream, hBe, hSe, h]
            intro _ hst _
            exact hst
          · simp [CreateChatCompletionStream, hBe, hSe, h]
            intro _ hst _
            exact hst
      · simp
    · simp

/-- A run of the amended C10: on a 401 answer CreateChatCompletion returns 0 and
CreateChatCompletionStream returns 401. -/
theorem chat_status_zero_on_failure_witness :
    (∃ res st err,
      (CreateChatCompletion (sampleEnv 401) sampleClient (.root 0) (some ⟨⟨"x"⟩⟩)).outcome
        = .returned (res, st, err) ∧ st = 0) ∧
    (∃ res err,
      (CreateChatCompletionStream (sampleEnv 401) sampleClient (.root 0)
        (some ⟨false, ⟨"x"⟩⟩)).outcome = .returned (res, 401, err)) :=
  have h := chat_status_zero_on_failure (sampleEnv 401) sampleClient (.root 0)
  ⟨match h.2.1 ⟨⟨"x"⟩⟩ (some ⟨1⟩) (sampleResponse 401) rfl rfl with
    | ⟨res, st, err, h1, h2, _⟩ => ⟨res, st, err, h1, (h2 (by decide)).1⟩,
   match h.2.2.1 ⟨false, ⟨"x"⟩⟩ (some ⟨2⟩) (sampleResponse 401) rfl rfl with
    | ⟨res, err, h1, _⟩ => ⟨res, err, h1⟩⟩

end deepseek
